import Mathlib

/-!
Shallow embedding of the LinkedIn Network Intelligence engine
(`linkedin_intel.py`): record types, export parser, identity index,
scoring engine (half-life strength, vouch score, reciprocity balance) and
the discovery algorithms (warm-path search, resurrection opportunities).

Modelling conventions:
- Timestamps are integers counting seconds; `datetime.now()` becomes an
  explicit `now : ℤ` parameter.  The Python expression
  `(now - t).days` is floor division of the difference by 86400
  (`timedelta.days` floors), embedded as `Int.fdiv`.
- Python floats are embedded as real numbers; `math.pow(0.5, x)` is the
  real power `(1/2 : ℝ) ^ x`.  The engine computes
  `half_life_strength` solely from `days_since_contact`, so the record
  stores `days_since_contact` and the strength field is derived from it
  by the function `strength`.  The presentation-level
  `round(value, 1)` applied when the float is stored is binary
  floating-point display rounding and is not modelled.
- Python string lowering and substring tests are embedded per character
  over `List Char` (`decide`-friendly, ASCII case folding as used by the
  data involved).
- CSV files are embedded as an optional list of rows, a row being an
  association list of column label to cell text (`row.get(k, "")` is
  `rowGet`); a missing file is `none`.  The library date parser
  `datetime.strptime` is an external function, passed as an explicit
  parameter `strptime : String → String → Option ℤ` (format, text);
  `none` stands for the exception the Python code catches.
-/

namespace LinkedinIntel

/-! ### Generic helpers -/

/-- Leading-segment test on character lists: `pat` occurs at the start of
`hay`. -/
def leadsWith : List Char → List Char → Bool
  | [], _ => true
  | _ :: _, [] => false
  | a :: pat, b :: hay => a == b && leadsWith pat hay

/-- Substring test on character lists: `pat` occurs contiguously in `hay`
(the Python `pat in hay` operator on strings). -/
def listHasInfix (hay pat : List Char) : Bool :=
  match hay with
  | [] => pat.isEmpty
  | _ :: t => leadsWith pat hay || listHasInfix t pat

/-- Lower-casing of a string, character by character (Python `str.lower`). -/
def strLower (s : String) : String := String.mk (s.data.map Char.toLower)

/-- The Python containment test `pat in hay` on strings. -/
def strContains (hay pat : String) : Bool := listHasInfix hay.toList pat.toList

/-- Stable sort, descending by a key into a linear order: the Python
`sorted(l, key=key, reverse=True)`. -/
def sortDescBy {α β : Type} [LinearOrder β] (key : α → β) (l : List α) : List α :=
  @List.insertionSort α (fun a b => key b ≤ key a)
    (fun a b => inferInstanceAs (Decidable (key b ≤ key a))) l

/-- Stable sort, ascending by a key into a linear order: the Python
`sorted(l, key=key)`. -/
def sortAscBy {α β : Type} [LinearOrder β] (key : α → β) (l : List α) : List α :=
  @List.insertionSort α (fun a b => key a ≤ key b)
    (fun a b => inferInstanceAs (Decidable (key a ≤ key b))) l

/-- Whole-day difference `(now - t).days` of Python datetimes measured in
seconds: `timedelta.days` floors, hence `Int.fdiv`. -/
def daysBetween (now t : ℤ) : ℤ := Int.fdiv (now - t) 86400

/-! ### Record types (the `@dataclass` definitions) -/

/-- The `Connection` dataclass. -/
structure Connection where
  first_name : String
  last_name : String
  email : String
  company : String
  position : String
  connected_on : ℤ
deriving Repr, DecidableEq

/-- The derived property `Connection.full_name`, the join key everywhere. -/
def Connection.full_name (c : Connection) : String :=
  c.first_name ++ " " ++ c.last_name

/-- The `Message` dataclass. -/
structure Message where
  conversation_id : String
  sender : String
  recipient : String
  date : ℤ
  content : String
deriving Repr, DecidableEq

/-- The shallow-phrase list used by `Message.is_deep`. -/
def shallow_phrases : List String :=
  ["congrats", "congratulations", "thanks", "thank you",
   "happy birthday", "great post", "interesting"]

/-- The derived property `Message.is_deep`: substantive message test
(length at least 100, and length at least 150 when a shallow phrase
occurs in the lower-cased content). -/
def Message.is_deep (m : Message) : Bool :=
  if m.content.length < 100 then false
  else
    if shallow_phrases.any (fun phrase => strContains (strLower m.content) phrase)
        && m.content.length < 150 then false
    else true

/-- The `Endorsement` dataclass. -/
structure Endorsement where
  name : String
  skill : String
  date : ℤ
deriving Repr, DecidableEq

/-- The `Recommendation` dataclass. -/
structure Recommendation where
  name : String
  date : ℤ
  text : String
deriving Repr, DecidableEq

/-- The `RelationshipScore` dataclass.  `half_life_strength` is a float
computed solely from `days_since_contact`; the embedding stores the day
count and derives the strength from it (see `strength` below). -/
structure RelationshipScore where
  name : String
  company : String
  vouch_score : ℕ
  reciprocity_balance : ℤ
  last_meaningful_contact : Option ℤ
  days_since_contact : ℤ
  shared_history : Bool
  messages_exchanged : ℕ
  recommendations_given : ℕ
  recommendations_received : ℕ
  endorsements_given : ℕ
  endorsements_received : ℕ
deriving Repr, DecidableEq

/-! ### Export parser (`LinkedInDataParser`) -/

/-- One CSV row: association list from column label to cell text. -/
abbrev Row : Type := List (String × String)

/-- The Python `row.get(label, "")`. -/
def rowGet (row : Row) (label : String) : String :=
  (List.lookup label row).getD ""

/-- The parsed collections held by `LinkedInDataParser` after `parse_all`. -/
structure ParsedExport where
  connections : List Connection
  messages : List Message
  endorsements_given : List Endorsement
  endorsements_received : List Endorsement
  recommendations_given : List Recommendation
  recommendations_received : List Recommendation
deriving Repr, DecidableEq

/-- One row of `Connections.csv` (`_parse_connections` loop body): the
`Connected On` cell is parsed with format `%d %b %Y`; on failure the
connection date defaults to 365 days before the parse time. -/
def parseConnectionRow (strptime : String → String → Option ℤ) (now : ℤ)
    (row : Row) : Connection :=
  let connected_on :=
    match strptime "%d %b %Y" (rowGet row "Connected On") with
    | some t => t
    | none => now - 365 * 86400
  { first_name := rowGet row "First Name"
    last_name := rowGet row "Last Name"
    email := rowGet row "Email Address"
    company := rowGet row "Company"
    position := rowGet row "Position"
    connected_on := connected_on }

/-- `_parse_connections`: a missing `Connections.csv` yields the empty
collection; otherwise every row is kept, in file order. -/
def parse_connections (strptime : String → String → Option ℤ) (now : ℤ)
    (file : Option (List Row)) : List Connection :=
  match file with
  | none => []
  | some rows => rows.map (parseConnectionRow strptime now)

/-- One row of `messages.csv` (`_parse_messages` loop body): the `DATE`
cell is parsed with the full timestamp format, then with a date-only
fallback on its first ten characters, and defaults to the current time
when both fail. -/
def parseMessageRow (strptime : String → String → Option ℤ) (now : ℤ)
    (row : Row) : Message :=
  let date :=
    match strptime "%Y-%m-%d %H:%M:%S UTC" (rowGet row "DATE") with
    | some t => t
    | none =>
      match strptime "%Y-%m-%d" ((rowGet row "DATE").take 10) with
      | some t => t
      | none => now
  { conversation_id := rowGet row "CONVERSATION ID"
    sender := rowGet row "FROM"
    recipient := rowGet row "TO"
    date := date
    content := rowGet row "CONTENT" }

/-- `_parse_messages`: a missing `messages.csv` yields the empty
collection; otherwise every row is kept, in file order. -/
def parse_messages (strptime : String → String → Option ℤ) (now : ℤ)
    (file : Option (List Row)) : List Message :=
  match file with
  | none => []
  | some rows => rows.map (parseMessageRow strptime now)

/-! ### Identity index (`NetworkAnalyzer._build_indexes`) -/

/-- The `messages_by_person` index at a lower-cased key: every message is
appended under its lower-cased sender and under its lower-cased recipient,
in file order (a message whose two sides lower to the same key is
appended twice, as the Python `defaultdict` loop does). -/
def messages_by_person (msgs : List Message) (key : String) : List Message :=
  msgs.flatMap (fun m =>
    (if strLower m.sender = key then [m] else []) ++
    (if strLower m.recipient = key then [m] else []))

/-- The `endorsements_received_by` and `endorsements_given_to` counters at
a lower-cased key. -/
def countEndorsements (es : List Endorsement) (key : String) : ℕ :=
  (es.filter (fun e => strLower e.name = key)).length

/-- The `recommendations_received_from` and `recommendations_given_to`
counters at a lower-cased key. -/
def countRecommendations (rs : List Recommendation) (key : String) : ℕ :=
  (rs.filter (fun r => strLower r.name = key)).length

/-! ### Scoring engine (`NetworkAnalyzer`) -/

/-- The class constant `HALF_LIFE_DAYS`. -/
def HALF_LIFE_DAYS : ℤ := 180

/-- The class constant `RECOMMENDATION_POINTS`. -/
def RECOMMENDATION_POINTS : ℤ := 10

/-- The class constant `ENDORSEMENT_POINTS`. -/
def ENDORSEMENT_POINTS : ℤ := 2

/-- The Python `max(m.date for m in msgs)` over a nonempty message list
(the `[]` case is never reached by the callers). -/
def listMaxDate : List Message → ℤ
  | [] => 0
  | [m] => m.date
  | m :: rest => max m.date (listMaxDate rest)

/-- The half-life strength formula of `calculate_relationship_scores`:
`100 * math.pow(0.5, days_since / HALF_LIFE_DAYS)`. -/
noncomputable def strength (days_since : ℤ) : ℝ :=
  100 * (1 / 2 : ℝ) ^ ((days_since : ℝ) / (HALF_LIFE_DAYS : ℝ))

/-- The stored float field `half_life_strength`, derived from the stored
day count. -/
noncomputable def RelationshipScore.half_life_strength
    (s : RelationshipScore) : ℝ :=
  strength s.days_since_contact

/-- `NetworkAnalyzer._calculate_vouch_score`: the running total over the
five `score +=` steps, capped by the final `min(score, 100)`. -/
def calculate_vouch_score (messages deep_messages : List Message)
    (days_since : ℤ) (recommendations_received recommendations_given
    endorsements_received : ℕ) : ℕ :=
  let depth :=
    if messages = [] then 0
    else if deep_messages = [] then 5
    else if deep_messages.length < 5 then 15
    else 30
  let recency :=
    if days_since > 730 then 0
    else if days_since > 365 then 5
    else if days_since > 180 then 10
    else 20
  let recommendation :=
    if recommendations_received > 0 then 30
    else if recommendations_given > 0 then 10
    else 0
  let endorsement := min (endorsements_received * 2) 10
  let volume :=
    if messages.length > 20 then 10
    else if messages.length > 10 then 5
    else 0
  min (depth + recency + recommendation + endorsement + volume) 100

/-- The `last_contact` selection of `calculate_relationship_scores`: the
most recent deep message when one exists, else the most recent message of
any kind when one exists, else the connection date. -/
def last_contact_of (d : ParsedExport) (conn : Connection) : ℤ :=
  let messages := messages_by_person d.messages (strLower conn.full_name)
  let deep_messages := messages.filter Message.is_deep
  if deep_messages ≠ [] then listMaxDate deep_messages
  else if messages ≠ [] then listMaxDate messages
  else conn.connected_on

/-- The per-connection body of
`NetworkAnalyzer.calculate_relationship_scores`. -/
def scoreFor (d : ParsedExport) (now : ℤ) (conn : Connection) :
    RelationshipScore :=
  let name_lower := strLower conn.full_name
  let messages := messages_by_person d.messages name_lower
  let deep_messages := messages.filter Message.is_deep
  let last_contact := last_contact_of d conn
  let days_since := daysBetween now last_contact
  let endorsements_received := countEndorsements d.endorsements_received name_lower
  let endorsements_given := countEndorsements d.endorsements_given name_lower
  let recommendations_received := countRecommendations d.recommendations_received name_lower
  let recommendations_given := countRecommendations d.recommendations_given name_lower
  let points_given : ℤ := recommendations_given * RECOMMENDATION_POINTS
    + endorsements_given * ENDORSEMENT_POINTS
  let points_received : ℤ := recommendations_received * RECOMMENDATION_POINTS
    + endorsements_received * ENDORSEMENT_POINTS
  let reciprocity := points_given - points_received
  let vouch := calculate_vouch_score messages deep_messages days_since
    recommendations_received recommendations_given endorsements_received
  { name := conn.full_name
    company := conn.company
    vouch_score := vouch
    reciprocity_balance := reciprocity
    last_meaningful_contact := if messages ≠ [] then some last_contact else none
    days_since_contact := days_since
    shared_history := false
    messages_exchanged := messages.length
    recommendations_given := recommendations_given
    recommendations_received := recommendations_received
    endorsements_given := endorsements_given
    endorsements_received := endorsements_received }

/-- `NetworkAnalyzer.calculate_relationship_scores`: the `scores = []`,
`for conn in self.parser.connections: ... scores.append(...)` loop. -/
def calculate_relationship_scores (d : ParsedExport) (now : ℤ) :
    List RelationshipScore :=
  d.connections.foldl (fun scores conn => scores ++ [scoreFor d now conn]) []

/-! ### Discovery algorithms -/

/-- `NetworkAnalyzer.get_reciprocity_balance`: positive balances sorted
descending, negative balances sorted ascending, each cut to 15. -/
def get_reciprocity_balance (d : ParsedExport) (now : ℤ) :
    List RelationshipScore × List RelationshipScore :=
  let scores := calculate_relationship_scores d now
  let they_owe :=
    (sortDescBy (fun s => s.reciprocity_balance)
      (scores.filter (fun s => s.reciprocity_balance > 0))).take 15
  let you_owe :=
    (sortAscBy (fun s => s.reciprocity_balance)
      (scores.filter (fun s => s.reciprocity_balance < 0))).take 15
  (they_owe, you_owe)

/-- `NetworkAnalyzer.find_warm_paths`: case-insensitive substring filter
on the company field, sorted descending by strength plus vouch score,
cut to the first 10. -/
noncomputable def find_warm_paths (d : ParsedExport) (now : ℤ)
    (target_company : String) : List RelationshipScore :=
  let scores := calculate_relationship_scores d now
  let direct := scores.filter
    (fun s => strContains (strLower s.company) (strLower target_company))
  (sortDescBy (fun s => s.half_life_strength + (s.vouch_score : ℝ)) direct).take 10

/-- The catch-up phrase list of `find_resurrection_opportunities`. -/
def catch_up_phrases : List String :=
  ["catch up", "grab coffee", "get together",
   "happy to help", "let me know", "would love to"]

/-- One opportunity record emitted by `find_resurrection_opportunities`. -/
structure Opportunity where
  name : String
  company : String
  last_message_date : ℤ
  days_ago : ℤ
  hook : String
  type : String
deriving Repr, DecidableEq

/-- The per-message test of the resurrection scan: strictly older than 90
days and carrying a catch-up phrase in the lower-cased content. -/
def resurrectionHit (now : ℤ) (m : Message) : Bool :=
  decide (daysBetween now m.date > 90) &&
    catch_up_phrases.any (fun phrase => strContains (strLower m.content) phrase)

/-- The opportunity dictionary built for a matching message. -/
def mkOpportunity (now : ℤ) (conn : Connection) (m : Message) : Opportunity :=
  { name := conn.full_name
    company := conn.company
    last_message_date := m.date
    days_ago := daysBetween now m.date
    hook := m.content.take 100 ++ "..."
    type := "catch_up_promised" }

/-- The per-connection scan of `find_resurrection_opportunities`: the
first matching message in index insertion order, if any (the Python
`for msg in messages: ... break`). -/
def resurrectionCandidate (d : ParsedExport) (now : ℤ) (conn : Connection) :
    Option Opportunity :=
  let messages := messages_by_person d.messages (strLower conn.full_name)
  (messages.find? (resurrectionHit now)).map (mkOpportunity now conn)

/-- `NetworkAnalyzer.find_resurrection_opportunities`: one opportunity per
connection with a matching message, sorted ascending by days elapsed and
cut to 20. -/
def find_resurrection_opportunities (d : ParsedExport) (now : ℤ) :
    List Opportunity :=
  let opportunities := d.connections.foldl (fun acc conn =>
    acc ++ (resurrectionCandidate d now conn).toList) []
  (sortAscBy (fun o => o.days_ago) opportunities).take 20


/-! ### Spec-side definitions -/

/-- The message-depth signal as the spec states it: 0 with no messages, 5
with messages but none deep, 15 with one to four deep messages, 30 with
five or more. -/
def depth_signal (messages deep_messages : List Message) : ℕ :=
  if messages = [] then 0
  else if deep_messages = [] then 5
  else if deep_messages.length < 5 then 15
  else 30

/-- The recency signal as the spec states it. -/
def recency_signal (days_since : ℤ) : ℕ :=
  if days_since > 730 then 0
  else if days_since > 365 then 5
  else if days_since > 180 then 10
  else 20

/-- The recommendation and endorsement signal as the spec states it:
received dominates given, plus the capped endorsement bonus. -/
def recommendation_signal (recommendations_received recommendations_given
    endorsements_received : ℕ) : ℕ :=
  (if recommendations_received > 0 then 30
   else if recommendations_given > 0 then 10
   else 0) + min (endorsements_received * 2) 10

/-- The volume bonus as the spec states it. -/
def volume_signal (messages : List Message) : ℕ :=
  if messages.length > 20 then 10
  else if messages.length > 10 then 5
  else 0

/-- The reciprocity ledger formula, abstracted over the four counts. -/
def reciprocity_balance (recommendations_given endorsements_given
    recommendations_received endorsements_received : ℕ) : ℤ :=
  ((recommendations_given : ℤ) * RECOMMENDATION_POINTS
    + (endorsements_given : ℤ) * ENDORSEMENT_POINTS)
  - ((recommendations_received : ℤ) * RECOMMENDATION_POINTS
    + (endorsements_received : ℤ) * ENDORSEMENT_POINTS)

/-- The deep-message count of a connection: the length of the
`deep_messages` list the engine computes for it. -/
def deep_message_count (d : ParsedExport) (conn : Connection) : ℕ :=
  ((messages_by_person d.messages (strLower conn.full_name)).filter
    Message.is_deep).length

/-- Modelled from the spec: the derived status label carried by the engine
output.  The derivation lives in the near-duplicate scoring copy embedded
in the dashboard file, which is not under `src/`; the spec states it as
"warm" if strength > 50, else "cold" if strength > 20, else "dormant". -/
noncomputable def status_label (strength_value : ℝ) : String :=
  if strength_value > 50 then "warm"
  else if strength_value > 20 then "cold"
  else "dormant"

/-! ### Concrete fixtures -/

/-- Seconds in one day. -/
def day : ℤ := 86400

/-- Fixture: a connection record. -/
def mkConn (f l comp : String) (t : ℤ) : Connection :=
  { first_name := f, last_name := l, email := "", company := comp,
    position := "", connected_on := t }

/-- Fixture: a message record. -/
def mkMsg (s r : String) (t : ℤ) (c : String) : Message :=
  { conversation_id := "conv1", sender := s, recipient := r, date := t,
    content := c }

/-- Fixture: the empty export. -/
def emptyExport : ParsedExport :=
  { connections := [], messages := [], endorsements_given := [],
    endorsements_received := [], recommendations_given := [],
    recommendations_received := [] }

/-- Fixture: one connection made 365 days before the analysis time
`365 * day`, with no message. -/
def oneConnExport : ParsedExport :=
  { emptyExport with connections := [mkConn "Ann" "Best" "TechCo" 0] }

/-- Fixture: a connection whose only message is 200 days old and carries a
catch-up phrase. -/
def resExport : ParsedExport :=
  { emptyExport with
    connections := [mkConn "Ann" "Best" "TechCo" 0],
    messages := [mkMsg "Ann Best" "Me" (-(200 * day))
      "Happy to help whenever you need it!"] }

/-- Fixture: one connection each with a positive and a negative
reciprocity balance. -/
def recExport : ParsedExport :=
  { emptyExport with
    connections := [mkConn "Pos" "Person" "X" 0, mkConn "Neg" "Person" "Y" 0],
    recommendations_given := [{ name := "Pos Person", date := 0, text := "" }],
    recommendations_received := [{ name := "Neg Person", date := 0, text := "" }] }

/-- Fixture: a connection whose connection date lies 360 days in the
future of the analysis time 0, as a parsed `Connected On` cell with a
future date produces. -/
def futureExport : ParsedExport :=
  { emptyExport with connections := [mkConn "Far" "Future" "Nowhere" (360 * day)] }

/-- Fixture: eleven connections at the same target company. -/
def warmPathExport : ParsedExport :=
  { emptyExport with connections :=
      [mkConn "A" "One" "Acme Corp" 0, mkConn "B" "Two" "Acme Corp" 0,
       mkConn "C" "Three" "Acme Corp" 0, mkConn "D" "Four" "Acme Corp" 0,
       mkConn "E" "Five" "Acme Corp" 0, mkConn "F" "Six" "Acme Corp" 0,
       mkConn "G" "Seven" "Acme Corp" 0, mkConn "H" "Eight" "Acme Corp" 0,
       mkConn "I" "Nine" "Acme Corp" 0, mkConn "J" "Ten" "Acme Corp" 0,
       mkConn "K" "Eleven" "Acme Corp" 0] }

/-- Fixture: a date parser that fails on every input. -/
def strptimeFail : String → String → Option ℤ := fun _ _ => none

/-- Fixture: a row whose date cells do not parse. -/
def badRow : Row := [("Connected On", "not a date"), ("DATE", "junk")]

/-! ### Helper lemmas -/

theorem foldl_append_eq_map {α β : Type} (f : α → β) (l : List α) (acc : List β) :
    l.foldl (fun s a => s ++ [f a]) acc = acc ++ l.map f := by
  induction l generalizing acc with
  | nil => simp
  | cons a l ih => simp [ih]

theorem foldl_option_eq_filterMap {α β : Type} (f : α → Option β) (l : List α)
    (acc : List β) :
    l.foldl (fun s a => s ++ (f a).toList) acc = acc ++ l.filterMap f := by
  induction l generalizing acc with
  | nil => simp
  | cons a l ih =>
    simp only [List.foldl_cons]
    rw [ih, List.filterMap_cons]
    cases h : f a <;> simp [h]

theorem scores_eq_map (d : ParsedExport) (now : ℤ) :
    calculate_relationship_scores d now = d.connections.map (scoreFor d now) := by
  unfold calculate_relationship_scores
  simpa using foldl_append_eq_map (scoreFor d now) d.connections []

theorem resurrection_eq_filterMap (d : ParsedExport) (now : ℤ) :
    find_resurrection_opportunities d now
      = (sortAscBy (fun o => o.days_ago)
          (d.connections.filterMap (resurrectionCandidate d now))).take 20 := by
  unfold find_resurrection_opportunities
  have h := foldl_option_eq_filterMap (resurrectionCandidate d now) d.connections []
  simp only [List.nil_append] at h
  rw [h]

theorem sortDescBy_sorted {α β : Type} [LinearOrder β] (key : α → β) (l : List α) :
    (sortDescBy key l).Sorted (fun a b => key b ≤ key a) := by
  have ht : IsTotal α (fun a b => key b ≤ key a) :=
    ⟨fun a b => le_total (key b) (key a)⟩
  have htr : IsTrans α (fun a b => key b ≤ key a) :=
    ⟨fun a b c h1 h2 => le_trans h2 h1⟩
  exact List.sorted_insertionSort _ l

theorem sortAscBy_sorted {α β : Type} [LinearOrder β] (key : α → β) (l : List α) :
    (sortAscBy key l).Sorted (fun a b => key a ≤ key b) := by
  have ht : IsTotal α (fun a b => key a ≤ key b) :=
    ⟨fun a b => le_total (key a) (key b)⟩
  have htr : IsTrans α (fun a b => key a ≤ key b) :=
    ⟨fun a b c h1 h2 => le_trans h1 h2⟩
  exact List.sorted_insertionSort _ l

theorem sortDescBy_perm {α β : Type} [LinearOrder β] (key : α → β) (l : List α) :
    (sortDescBy key l).Perm l :=
  List.perm_insertionSort _ l

theorem sortAscBy_perm {α β : Type} [LinearOrder β] (key : α → β) (l : List α) :
    (sortAscBy key l).Perm l :=
  List.perm_insertionSort _ l

theorem sortDescBy_length {α β : Type} [LinearOrder β] (key : α → β) (l : List α) :
    (sortDescBy key l).length = l.length :=
  (sortDescBy_perm key l).length_eq

theorem sortAscBy_length {α β : Type} [LinearOrder β] (key : α → β) (l : List α) :
    (sortAscBy key l).length = l.length :=
  (sortAscBy_perm key l).length_eq

theorem listMaxDate_mem : ∀ (msgs : List Message), msgs ≠ [] →
    ∃ m ∈ msgs, m.date = listMaxDate msgs := by
  intro msgs
  induction msgs with
  | nil => intro h; exact absurd rfl h
  | cons a rest ih =>
    intro _
    cases rest with
    | nil => exact ⟨a, List.mem_singleton_self a, rfl⟩
    | cons b t =>
      obtain ⟨m, hm, hdate⟩ := ih (by simp)
      rcases le_total (listMaxDate (b :: t)) a.date with hle | hle
      · exact ⟨a, List.mem_cons_self a _, by
          show a.date = max a.date (listMaxDate (b :: t))
          exact (max_eq_left hle).symm⟩
      · exact ⟨m, List.mem_cons_of_mem a hm, by
          show m.date = max a.date (listMaxDate (b :: t))
          rw [max_eq_right hle]; exact hdate⟩

theorem listMaxDate_le : ∀ (msgs : List Message) (m : Message), m ∈ msgs →
    m.date ≤ listMaxDate msgs := by
  intro msgs
  induction msgs with
  | nil => intro m hm; cases hm
  | cons a rest ih =>
    intro m hm
    cases rest with
    | nil =>
      rcases List.mem_singleton.mp hm with rfl
      exact le_refl _
    | cons b t =>
      rcases List.mem_cons.mp hm with rfl | hm
      · show m.date ≤ max m.date (listMaxDate (b :: t))
        exact le_max_left _ _
      · show m.date ≤ max a.date (listMaxDate (b :: t))
        exact le_trans (ih m hm) (le_max_right _ _)

theorem strength_pos (d : ℤ) : 0 < strength d :=
  mul_pos (by norm_num) (Real.rpow_pos_of_pos (by norm_num) _)

theorem strength_le_100 (d : ℤ) (h : 0 ≤ d) : strength d ≤ 100 := by
  unfold strength HALF_LIFE_DAYS
  have h1 : (1 / 2 : ℝ) ^ ((d : ℝ) / ((180 : ℤ) : ℝ)) ≤ 1 := by
    apply Real.rpow_le_one (by norm_num) (by norm_num)
    apply div_nonneg
    · exact_mod_cast h
    · norm_num
  calc 100 * (1 / 2 : ℝ) ^ ((d : ℝ) / ((180 : ℤ) : ℝ)) ≤ 100 * 1 :=
        mul_le_mul_of_nonneg_left h1 (by norm_num)
    _ = 100 := by norm_num

theorem strength_strictAnti (d1 d2 : ℤ) (h : d1 < d2) :
    strength d2 < strength d1 := by
  unfold strength HALF_LIFE_DAYS
  have hdiv : (d1 : ℝ) / ((180 : ℤ) : ℝ) < (d2 : ℝ) / ((180 : ℤ) : ℝ) := by
    have hc : (d1 : ℝ) < (d2 : ℝ) := by exact_mod_cast h
    have h180 : (0 : ℝ) < ((180 : ℤ) : ℝ) := by norm_num
    exact div_lt_div_of_pos_right hc h180
  exact mul_lt_mul_of_pos_left
    (Real.rpow_lt_rpow_of_exponent_gt (by norm_num) (by norm_num) hdiv)
    (by norm_num)

theorem strength_at_half_life : strength HALF_LIFE_DAYS = 50 := by
  unfold strength HALF_LIFE_DAYS
  have h : (((180 : ℤ) : ℝ)) / (((180 : ℤ)) : ℝ) = 1 := by norm_num
  rw [h, Real.rpow_one]
  norm_num

theorem strength_neg_two_half_lives : strength (-360) = 400 := by
  unfold strength HALF_LIFE_DAYS
  have h : (((-360 : ℤ) : ℝ)) / (((180 : ℤ)) : ℝ) = ((-2 : ℤ) : ℝ) := by
    push_cast; norm_num
  rw [h, Real.rpow_intCast]
  norm_num

/-! ### Claim theorems -/

/-- C9: computing the RelationshipScore list is a pure, deterministic
function of the parsed input and the analysis time: the result is exactly
the per-connection scoring function mapped over the connections list, in
input order, so its content and order depend on nothing but the input. -/
theorem relationship_scores_deterministic (d : ParsedExport) (now : ℤ) :
    calculate_relationship_scores d now = d.connections.map (scoreFor d now) ∧
    (calculate_relationship_scores d now).length = d.connections.length := by
  refine ⟨scores_eq_map d now, ?_⟩
  rw [scores_eq_map d now, List.length_map]

/-- C5: the reciprocity balance equals
`(recommendations_given * 10 + endorsements_given * 2) -
(recommendations_received * 10 + endorsements_received * 2)` and the
formula is skew-symmetric under swapping given and received counts. -/
theorem reciprocity_formula_and_skew (d : ParsedExport) (now : ℤ)
    (conn : Connection) (hc : conn ∈ d.connections) (rg eg rr er : ℕ) :
    (scoreFor d now conn).reciprocity_balance
      = reciprocity_balance (scoreFor d now conn).recommendations_given
          (scoreFor d now conn).endorsements_given
          (scoreFor d now conn).recommendations_received
          (scoreFor d now conn).endorsements_received ∧
    scoreFor d now conn ∈ calculate_relationship_scores d now ∧
    reciprocity_balance rg eg rr er
      = ((rg : ℤ) * 10 + (eg : ℤ) * 2) - ((rr : ℤ) * 10 + (er : ℤ) * 2) ∧
    reciprocity_balance rr er rg eg = - reciprocity_balance rg eg rr er := by
  refine ⟨rfl, ?_, ?_, ?_⟩
  · rw [scores_eq_map]; exact List.mem_map_of_mem _ hc
  · unfold reciprocity_balance RECOMMENDATION_POINTS ENDORSEMENT_POINTS; ring
  · unfold reciprocity_balance; ring

theorem reciprocity_formula_and_skew_witness :
    mkConn "Pos" "Person" "X" 0 ∈ recExport.connections ∧
    ((scoreFor recExport 0 (mkConn "Pos" "Person" "X" 0)).reciprocity_balance
      = reciprocity_balance
          (scoreFor recExport 0 (mkConn "Pos" "Person" "X" 0)).recommendations_given
          (scoreFor recExport 0 (mkConn "Pos" "Person" "X" 0)).endorsements_given
          (scoreFor recExport 0 (mkConn "Pos" "Person" "X" 0)).recommendations_received
          (scoreFor recExport 0 (mkConn "Pos" "Person" "X" 0)).endorsements_received ∧
    scoreFor recExport 0 (mkConn "Pos" "Person" "X" 0)
      ∈ calculate_relationship_scores recExport 0 ∧
    reciprocity_balance 1 2 3 4
      = ((1 : ℤ) * 10 + (2 : ℤ) * 2) - ((3 : ℤ) * 10 + (4 : ℤ) * 2) ∧
    reciprocity_balance 3 4 1 2 = - reciprocity_balance 1 2 3 4) :=
  ⟨by decide,
   reciprocity_formula_and_skew recExport 0 (mkConn "Pos" "Person" "X" 0) (by decide) 1 2 3 4⟩

/-- C2: the vouch score is the capped sum of the four signals stated by
the spec, the recommendation signal takes the received branch whenever a
received recommendation exists, and the result always lies in [0, 100]. -/
theorem vouch_score_signals_and_bounds (messages deep_messages : List Message)
    (days_since : ℤ) (rr rg er : ℕ) (d : ParsedExport) (now : ℤ)
    (conn : Connection) :
    calculate_vouch_score messages deep_messages days_since rr rg er
      = min (depth_signal messages deep_messages + recency_signal days_since
          + recommendation_signal rr rg er + volume_signal messages) 100 ∧
    calculate_vouch_score messages deep_messages days_since rr rg er ≤ 100 ∧
    (0 < rr → recommendation_signal rr rg er = 30 + min (er * 2) 10) ∧
    (scoreFor d now conn).vouch_score
      = calculate_vouch_score
          (messages_by_person d.messages (strLower conn.full_name))
          ((messages_by_person d.messages (strLower conn.full_name)).filter
            Message.is_deep)
          (scoreFor d now conn).days_since_contact
          (scoreFor d now conn).recommendations_received
          (scoreFor d now conn).recommendations_given
          (scoreFor d now conn).endorsements_received ∧
    (scoreFor d now conn).vouch_score ≤ 100 := by
  refine ⟨?_, ?_, ?_, rfl, ?_⟩
  · simp only [calculate_vouch_score, depth_signal, recency_signal,
      recommendation_signal, volume_signal]
    omega
  · exact min_le_right _ _
  · intro h
    unfold recommendation_signal
    rw [if_pos h]
  · exact min_le_right _ _

theorem vouch_score_signals_and_bounds_witness :
    0 < 2 ∧ recommendation_signal 2 3 4 = 30 + min (4 * 2) 10 :=
  ⟨by norm_num,
   (vouch_score_signals_and_bounds [] [] 365 2 3 4 emptyExport 0
     (mkConn "A" "B" "C" 0)).2.2.1 (by norm_num)⟩

/-- C1: for every connection the engine selects `last_contact` as the most
recent deep message when one exists, else the most recent message of any
kind when one exists, else the connection date, and the half-life strength
of the produced record is `100 * 0.5 ^ (days_since / 180)` where
`days_since` is the whole-day difference between the analysis time and
`last_contact`. -/
theorem last_contact_and_half_life (d : ParsedExport) (now : ℤ)
    (conn : Connection) (hc : conn ∈ d.connections) :
    ∃ lc : ℤ,
      scoreFor d now conn ∈ calculate_relationship_scores d now ∧
      (scoreFor d now conn).days_since_contact = daysBetween now lc ∧
      (scoreFor d now conn).half_life_strength
        = 100 * (1 / 2 : ℝ) ^ (((daysBetween now lc : ℤ) : ℝ) / 180) ∧
      ((messages_by_person d.messages (strLower conn.full_name)).filter
          Message.is_deep ≠ [] →
        (∃ m ∈ (messages_by_person d.messages (strLower conn.full_name)).filter
            Message.is_deep, m.date = lc) ∧
        ∀ m ∈ (messages_by_person d.messages (strLower conn.full_name)).filter
            Message.is_deep, m.date ≤ lc) ∧
      ((messages_by_person d.messages (strLower conn.full_name)).filter
          Message.is_deep = [] →
        messages_by_person d.messages (strLower conn.full_name) ≠ [] →
        (∃ m ∈ messages_by_person d.messages (strLower conn.full_name),
            m.date = lc) ∧
        ∀ m ∈ messages_by_person d.messages (strLower conn.full_name),
            m.date ≤ lc) ∧
      (messages_by_person d.messages (strLower conn.full_name) = [] →
        lc = conn.connected_on) := by
  have hmem : scoreFor d now conn ∈ calculate_relationship_scores d now := by
    rw [scores_eq_map]; exact List.mem_map_of_mem _ hc
  refine ⟨last_contact_of d conn, hmem, rfl, ?_, ?_, ?_, ?_⟩
  · show strength (daysBetween now (last_contact_of d conn)) = _
    unfold strength HALF_LIFE_DAYS
    norm_num
  · intro hne
    have hlc : last_contact_of d conn
        = listMaxDate ((messages_by_person d.messages (strLower conn.full_name)).filter
            Message.is_deep) := by
      simp only [last_contact_of]
      rw [if_pos hne]
    rw [hlc]
    exact ⟨listMaxDate_mem _ hne, fun m hm => listMaxDate_le _ m hm⟩
  · intro hdeep hmsgs
    have hlc : last_contact_of d conn
        = listMaxDate (messages_by_person d.messages (strLower conn.full_name)) := by
      simp only [last_contact_of]
      rw [if_neg (fun h => h hdeep), if_pos hmsgs]
    rw [hlc]
    exact ⟨listMaxDate_mem _ hmsgs, fun m hm => listMaxDate_le _ m hm⟩
  · intro hmsgs
    have hdeep : (messages_by_person d.messages (strLower conn.full_name)).filter
        Message.is_deep = [] := by rw [hmsgs]; rfl
    simp only [last_contact_of]
    rw [if_neg (fun h => h hdeep), if_neg (fun h => h hmsgs)]

theorem last_contact_and_half_life_witness :
    (scoreFor oneConnExport (365 * day)
      (mkConn "Ann" "Best" "TechCo" 0)).days_since_contact = 365 := by
  obtain ⟨lc, _, h2, _, _, _, h6⟩ :=
    last_contact_and_half_life oneConnExport (365 * day)
      (mkConn "Ann" "Best" "TechCo" 0) (by decide)
  have hlc : lc = (mkConn "Ann" "Best" "TechCo" 0).connected_on := h6 (by decide)
  rw [h2, hlc]
  decide

/-- C6 (amended): the computed strength is always positive, is at most 100
whenever `days_since` is non-negative (the claim fails for a last contact
in the future of the analysis time), is strictly decreasing in
`days_since`, and equals exactly 50 at `days_since = 180`. -/
theorem strength_range_monotonicity_half_life (d : ParsedExport) (now : ℤ)
    (s : RelationshipScore) (hs : s ∈ calculate_relationship_scores d now)
    (d1 d2 : ℤ) (h12 : d1 < d2) :
    0 < s.half_life_strength ∧
    (0 ≤ s.days_since_contact → s.half_life_strength ≤ 100) ∧
    s.half_life_strength = strength s.days_since_contact ∧
    strength d2 < strength d1 ∧
    strength HALF_LIFE_DAYS = 50 :=
  ⟨strength_pos _, fun h => strength_le_100 _ h, rfl,
   strength_strictAnti d1 d2 h12, strength_at_half_life⟩

theorem strength_range_monotonicity_half_life_witness :
    0 < (scoreFor oneConnExport (365 * day)
          (mkConn "Ann" "Best" "TechCo" 0)).half_life_strength ∧
    (scoreFor oneConnExport (365 * day)
      (mkConn "Ann" "Best" "TechCo" 0)).half_life_strength ≤ 100 ∧
    strength 20 < strength 10 ∧
    strength HALF_LIFE_DAYS = 50 := by
  have h := strength_range_monotonicity_half_life oneConnExport (365 * day)
    (scoreFor oneConnExport (365 * day) (mkConn "Ann" "Best" "TechCo" 0))
    (by rw [scores_eq_map]; exact List.mem_map_of_mem _ (by decide)) 10 20
    (by norm_num)
  exact ⟨h.1, h.2.1 (by decide), h.2.2.2.1, h.2.2.2.2⟩

/-- C6 counterexample: a connection whose connection date lies 360 days in
the future of the analysis time (a parseable future `Connected On` cell)
receives strength 400, outside (0, 100]. -/
theorem strength_above_100_counterexample :
    ∃ s ∈ calculate_relationship_scores futureExport 0,
      100 < s.half_life_strength := by
  refine ⟨scoreFor futureExport 0 (mkConn "Far" "Future" "Nowhere" (360 * day)),
    ?_, ?_⟩
  · rw [scores_eq_map]; exact List.mem_map_of_mem _ (by decide)
  · have hd : (scoreFor futureExport 0
        (mkConn "Far" "Future" "Nowhere" (360 * day))).days_since_contact
        = -360 := by decide
    show (100 : ℝ) < strength (scoreFor futureExport 0
      (mkConn "Far" "Future" "Nowhere" (360 * day))).days_since_contact
    rw [hd, strength_neg_two_half_lives]
    norm_num

theorem status_label_cases (v : ℝ) :
    (status_label v = "warm" ↔ 50 < v) ∧
    (status_label v = "cold" ↔ v ≤ 50 ∧ 20 < v) ∧
    (status_label v = "dormant" ↔ v ≤ 20) := by
  unfold status_label
  by_cases h1 : v > 50
  · rw [if_pos h1]
    exact ⟨⟨fun _ => h1, fun _ => rfl⟩,
      ⟨fun h => absurd h (by decide), fun h => absurd h1 (not_lt.mpr h.1)⟩,
      ⟨fun h => absurd h (by decide),
       fun h => absurd h1 (not_lt.mpr (h.trans (by norm_num)))⟩⟩
  · rw [if_neg h1]
    by_cases h2 : v > 20
    · rw [if_pos h2]
      exact ⟨⟨fun h => absurd h (by decide), fun h => absurd h h1⟩,
        ⟨fun _ => ⟨not_lt.mp h1, h2⟩, fun _ => rfl⟩,
        ⟨fun h => absurd h (by decide), fun h => absurd h2 (not_lt.mpr h)⟩⟩
    · rw [if_neg h2]
      exact ⟨⟨fun h => absurd h (by decide), fun h => absurd h h1⟩,
        ⟨fun h => absurd h (by decide), fun h => absurd h.2 h2⟩,
        ⟨fun _ => not_lt.mp h2, fun _ => rfl⟩⟩

/-- C7 (spec-modelled): the engine output for every connection carries a
deep-message count (the number of deep messages indexed for the person)
and a derived status label that is "warm" iff strength > 50, "cold" iff
50 >= strength > 20, and "dormant" iff strength <= 20. -/
theorem score_status_label_and_deep_count (d : ParsedExport) (now : ℤ)
    (conn : Connection) (hc : conn ∈ d.connections) :
    (status_label (scoreFor d now conn).half_life_strength = "warm"
      ↔ 50 < (scoreFor d now conn).half_life_strength) ∧
    (status_label (scoreFor d now conn).half_life_strength = "cold"
      ↔ (scoreFor d now conn).half_life_strength ≤ 50
          ∧ 20 < (scoreFor d now conn).half_life_strength) ∧
    (status_label (scoreFor d now conn).half_life_strength = "dormant"
      ↔ (scoreFor d now conn).half_life_strength ≤ 20) ∧
    deep_message_count d conn
      = (messages_by_person d.messages (strLower conn.full_name)).countP
          (fun m => m.is_deep) ∧
    scoreFor d now conn ∈ calculate_relationship_scores d now := by
  obtain ⟨h1, h2, h3⟩ := status_label_cases (scoreFor d now conn).half_life_strength
  refine ⟨h1, h2, h3, ?_, ?_⟩
  · simp [deep_message_count, List.countP_eq_length_filter]
  · rw [scores_eq_map]; exact List.mem_map_of_mem _ hc

theorem score_status_label_and_deep_count_witness :
    (status_label (scoreFor oneConnExport (365 * day)
        (mkConn "Ann" "Best" "TechCo" 0)).half_life_strength = "warm"
      ↔ 50 < (scoreFor oneConnExport (365 * day)
          (mkConn "Ann" "Best" "TechCo" 0)).half_life_strength) ∧
    deep_message_count oneConnExport (mkConn "Ann" "Best" "TechCo" 0) = 0 := by
  have h := score_status_label_and_deep_count oneConnExport (365 * day)
    (mkConn "Ann" "Best" "TechCo" 0) (by decide)
  refine ⟨h.1, ?_⟩
  rw [h.2.2.2.1]
  decide

/-- C10: the reciprocity split partitions by sign: the first list holds
exactly the positive balances sorted descending, the second exactly the
negative balances sorted ascending, each cut to at most 15, and a zero
balance appears in neither. -/
theorem reciprocity_split_partitions_by_sign (d : ParsedExport) (now : ℤ) :
    (∀ s ∈ (get_reciprocity_balance d now).1, 0 < s.reciprocity_balance) ∧
    (∀ s ∈ (get_reciprocity_balance d now).2, s.reciprocity_balance < 0) ∧
    (get_reciprocity_balance d now).1.Sorted
      (fun a b => b.reciprocity_balance ≤ a.reciprocity_balance) ∧
    (get_reciprocity_balance d now).2.Sorted
      (fun a b => a.reciprocity_balance ≤ b.reciprocity_balance) ∧
    (get_reciprocity_balance d now).1.length ≤ 15 ∧
    (get_reciprocity_balance d now).2.length ≤ 15 ∧
    (((calculate_relationship_scores d now).filter
        (fun s => s.reciprocity_balance > 0)).length ≤ 15 →
      ∀ s ∈ calculate_relationship_scores d now, 0 < s.reciprocity_balance →
        s ∈ (get_reciprocity_balance d now).1) ∧
    (((calculate_relationship_scores d now).filter
        (fun s => s.reciprocity_balance < 0)).length ≤ 15 →
      ∀ s ∈ calculate_relationship_scores d now, s.reciprocity_balance < 0 →
        s ∈ (get_reciprocity_balance d now).2) ∧
    (∀ s ∈ calculate_relationship_scores d now, s.reciprocity_balance = 0 →
      s ∉ (get_reciprocity_balance d now).1 ∧
      s ∉ (get_reciprocity_balance d now).2) := by
  have e1 : (get_reciprocity_balance d now).1
      = (sortDescBy (fun s : RelationshipScore => s.reciprocity_balance)
          ((calculate_relationship_scores d now).filter
            (fun s => s.reciprocity_balance > 0))).take 15 := rfl
  have e2 : (get_reciprocity_balance d now).2
      = (sortAscBy (fun s : RelationshipScore => s.reciprocity_balance)
          ((calculate_relationship_scores d now).filter
            (fun s => s.reciprocity_balance < 0))).take 15 := rfl
  have sign1 : ∀ s ∈ (get_reciprocity_balance d now).1, 0 < s.reciprocity_balance := by
    intro s hs
    rw [e1] at hs
    have hs3 := (sortDescBy_perm _ _).mem_iff.mp (List.take_subset _ _ hs)
    have hp := List.of_mem_filter hs3
    exact of_decide_eq_true hp
  have sign2 : ∀ s ∈ (get_reciprocity_balance d now).2, s.reciprocity_balance < 0 := by
    intro s hs
    rw [e2] at hs
    have hs3 := (sortAscBy_perm _ _).mem_iff.mp (List.take_subset _ _ hs)
    have hp := List.of_mem_filter hs3
    exact of_decide_eq_true hp
  refine ⟨sign1, sign2, ?_, ?_, ?_, ?_, ?_, ?_, ?_⟩
  · rw [e1]
    exact List.Pairwise.sublist (List.take_sublist _ _) (sortDescBy_sorted _ _)
  · rw [e2]
    exact List.Pairwise.sublist (List.take_sublist _ _) (sortAscBy_sorted _ _)
  · rw [e1, List.length_take]; exact min_le_left _ _
  · rw [e2, List.length_take]; exact min_le_left _ _
  · intro hlen s hs hpos
    rw [e1, List.take_of_length_le (by rw [sortDescBy_length]; exact hlen)]
    exact (sortDescBy_perm _ _).mem_iff.mpr
      (List.mem_filter.mpr ⟨hs, decide_eq_true hpos⟩)
  · intro hlen s hs hneg
    rw [e2, List.take_of_length_le (by rw [sortAscBy_length]; exact hlen)]
    exact (sortAscBy_perm _ _).mem_iff.mpr
      (List.mem_filter.mpr ⟨hs, decide_eq_true hneg⟩)
  · intro s hs h0
    refine ⟨fun hmem => ?_, fun hmem => ?_⟩
    · have := sign1 s hmem; omega
    · have := sign2 s hmem; omega

theorem reciprocity_split_partitions_by_sign_witness :
    0 < (scoreFor recExport 0 (mkConn "Pos" "Person" "X" 0)).reciprocity_balance ∧
    scoreFor recExport 0 (mkConn "Neg" "Person" "Y" 0)
      ∈ (get_reciprocity_balance recExport 0).2 := by
  have h := reciprocity_split_partitions_by_sign recExport 0
  refine ⟨h.1 _ (by decide), ?_⟩
  exact h.2.2.2.2.2.2.2.1 (by decide) _ (by decide) (by decide)

/-- C3 (amended): warm-path search returns only matching connections,
sorted descending by strength plus vouch score, cut to the first ten (the
claim omits this cap: with more than ten matches not all are returned);
with at most ten matches every matching score is returned, and with no
match the result is the empty sequence. -/
theorem warm_paths_filter_sort_cap (d : ParsedExport) (now : ℤ)
    (target_company : String) :
    (∀ s ∈ find_warm_paths d now target_company,
      strContains (strLower s.company) (strLower target_company) = true) ∧
    (find_warm_paths d now target_company).Sorted
      (fun a b => b.half_life_strength + (b.vouch_score : ℝ)
        ≤ a.half_life_strength + (a.vouch_score : ℝ)) ∧
    (find_warm_paths d now target_company).length ≤ 10 ∧
    (((calculate_relationship_scores d now).filter
        (fun s => strContains (strLower s.company)
          (strLower target_company))).length ≤ 10 →
      ∀ s ∈ calculate_relationship_scores d now,
        strContains (strLower s.company) (strLower target_company) = true →
          s ∈ find_warm_paths d now target_company) ∧
    ((∀ s ∈ calculate_relationship_scores d now,
        strContains (strLower s.company) (strLower target_company) = false) →
      find_warm_paths d now target_company = []) := by
  have e : find_warm_paths d now target_company
      = (sortDescBy (fun s : RelationshipScore =>
            s.half_life_strength + (s.vouch_score : ℝ))
          ((calculate_relationship_scores d now).filter
            (fun s => strContains (strLower s.company)
              (strLower target_company)))).take 10 := rfl
  refine ⟨?_, ?_, ?_, ?_, ?_⟩
  · intro s hs
    rw [e] at hs
    have hs3 := (sortDescBy_perm _ _).mem_iff.mp (List.take_subset _ _ hs)
    have hp := List.of_mem_filter hs3
    exact hp
  · rw [e]
    exact List.Pairwise.sublist (List.take_sublist _ _) (sortDescBy_sorted _ _)
  · rw [e, List.length_take]; exact min_le_left _ _
  · intro hlen s hs hmatch
    rw [e, List.take_of_length_le (by rw [sortDescBy_length]; exact hlen)]
    exact (sortDescBy_perm _ _).mem_iff.mpr (List.mem_filter.mpr ⟨hs, hmatch⟩)
  · intro hall
    have hfil : (calculate_relationship_scores d now).filter
        (fun s => strContains (strLower s.company) (strLower target_company))
        = [] :=
      List.filter_eq_nil_iff.mpr (by simpa using hall)
    rw [e, hfil]
    rfl

theorem warm_paths_filter_sort_cap_witness :
    find_warm_paths emptyExport 0 "Stripe" = [] := by
  apply (warm_paths_filter_sort_cap emptyExport 0 "Stripe").2.2.2.2
  intro s hs
  rw [show calculate_relationship_scores emptyExport 0 = [] from rfl] at hs
  cases hs

set_option maxRecDepth 20000 in
/-- C3 counterexample: with eleven connections at the target company the
search returns only ten scores, so not every matching connection is
returned. -/
theorem warm_paths_cap_counterexample :
    ((calculate_relationship_scores warmPathExport 0).filter
      (fun s => strContains (strLower s.company) (strLower "Acme"))).length
      = 11 ∧
    (find_warm_paths warmPathExport 0 "Acme").length = 10 := by
  have h11 : ((calculate_relationship_scores warmPathExport 0).filter
      (fun s => strContains (strLower s.company) (strLower "Acme"))).length
      = 11 := by decide
  refine ⟨h11, ?_⟩
  have e : find_warm_paths warmPathExport 0 "Acme"
      = (sortDescBy (fun s : RelationshipScore =>
            s.half_life_strength + (s.vouch_score : ℝ))
          ((calculate_relationship_scores warmPathExport 0).filter
            (fun s => strContains (strLower s.company)
              (strLower "Acme")))).take 10 := rfl
  rw [e, List.length_take, sortDescBy_length, h11]
  decide

/-- C4: every resurrection opportunity comes from the first message, in
index insertion order, of its connection that is strictly older than 90
days and contains a catch-up phrase; its hook is the content cut to 100
characters plus an ellipsis; the result is sorted ascending by days
elapsed and capped at 20 entries. -/
theorem resurrection_opportunities_sound (d : ParsedExport) (now : ℤ) :
    (∀ o ∈ find_resurrection_opportunities d now,
      ∃ conn ∈ d.connections, ∃ m : Message,
        m ∈ messages_by_person d.messages (strLower conn.full_name) ∧
        (messages_by_person d.messages (strLower conn.full_name)).find?
          (resurrectionHit now) = some m ∧
        90 < daysBetween now m.date ∧
        catch_up_phrases.any
          (fun phrase => strContains (strLower m.content) phrase) = true ∧
        o = mkOpportunity now conn m ∧
        o.days_ago = daysBetween now m.date ∧
        90 < o.days_ago ∧
        o.hook = m.content.take 100 ++ "...") ∧
    (find_resurrection_opportunities d now).Sorted
      (fun a b => a.days_ago ≤ b.days_ago) ∧
    (find_resurrection_opportunities d now).length ≤ 20 := by
  refine ⟨?_, ?_, ?_⟩
  · intro o ho
    rw [resurrection_eq_filterMap] at ho
    have ho3 := (sortAscBy_perm _ _).mem_iff.mp (List.take_subset _ _ ho)
    obtain ⟨conn, hconn, hcand⟩ := List.mem_filterMap.mp ho3
    simp only [resurrectionCandidate] at hcand
    obtain ⟨m, hfind, heq⟩ := Option.map_eq_some'.mp hcand
    have hmem := List.mem_of_find?_eq_some hfind
    have hhit := List.find?_some hfind
    rw [resurrectionHit, Bool.and_eq_true] at hhit
    obtain ⟨hdays, hphrase⟩ := hhit
    have hdays2 : 90 < daysBetween now m.date := of_decide_eq_true hdays
    refine ⟨conn, hconn, m, hmem, hfind, hdays2, hphrase, heq.symm, ?_, ?_, ?_⟩
    · rw [← heq]; rfl
    · rw [← heq]; exact hdays2
    · rw [← heq]; rfl
  · rw [resurrection_eq_filterMap]
    exact List.Pairwise.sublist (List.take_sublist _ _) (sortAscBy_sorted _ _)
  · rw [resurrection_eq_filterMap, List.length_take]; exact min_le_left _ _

set_option maxRecDepth 20000 in
theorem resurrection_opportunities_sound_witness :
    90 < (mkOpportunity 0 (mkConn "Ann" "Best" "TechCo" 0)
      (mkMsg "Ann Best" "Me" (-(200 * day))
        "Happy to help whenever you need it!")).days_ago := by
  obtain ⟨conn, hconn, m, _, _, _, _, _, _, hdo, _⟩ :=
    (resurrection_opportunities_sound resExport 0).1
      (mkOpportunity 0 (mkConn "Ann" "Best" "TechCo" 0)
        (mkMsg "Ann Best" "Me" (-(200 * day))
          "Happy to help whenever you need it!"))
      (by decide)
  exact hdo

/-- C8: parsing never fails: a missing file yields the empty collection, a
connection row with an unparseable date gets a connection date exactly 365
days before the parse time and is otherwise kept, and a message date falls
back from the full timestamp format to the date-only format over the first
ten characters and then to the current time. -/
theorem parser_defaults (strptime : String → String → Option ℤ) (now : ℤ)
    (rows : List Row) (row : Row) (hrow : row ∈ rows) :
    parse_connections strptime now none = [] ∧
    parse_messages strptime now none = [] ∧
    parse_connections strptime now (some rows)
      = rows.map (parseConnectionRow strptime now) ∧
    parse_messages strptime now (some rows)
      = rows.map (parseMessageRow strptime now) ∧
    parseConnectionRow strptime now row
      ∈ parse_connections strptime now (some rows) ∧
    (strptime "%d %b %Y" (rowGet row "Connected On") = none →
      (parseConnectionRow strptime now row).connected_on
        = now - 365 * 86400) ∧
    (∀ t : ℤ, strptime "%Y-%m-%d %H:%M:%S UTC" (rowGet row "DATE") = some t →
      (parseMessageRow strptime now row).date = t) ∧
    (∀ t : ℤ, strptime "%Y-%m-%d %H:%M:%S UTC" (rowGet row "DATE") = none →
      strptime "%Y-%m-%d" ((rowGet row "DATE").take 10) = some t →
      (parseMessageRow strptime now row).date = t) ∧
    (strptime "%Y-%m-%d %H:%M:%S UTC" (rowGet row "DATE") = none →
      strptime "%Y-%m-%d" ((rowGet row "DATE").take 10) = none →
      (parseMessageRow strptime now row).date = now) := by
  refine ⟨rfl, rfl, rfl, rfl, List.mem_map_of_mem _ hrow, ?_, ?_, ?_, ?_⟩
  · intro h; simp [parseConnectionRow, h]
  · intro t h; simp [parseMessageRow, h]
  · intro t h1 h2; simp [parseMessageRow, h1, h2]
  · intro h1 h2; simp [parseMessageRow, h1, h2]

theorem parser_defaults_witness :
    parse_connections strptimeFail 77 none = [] ∧
    (parseConnectionRow strptimeFail 77 badRow).connected_on
      = 77 - 365 * 86400 ∧
    (parseMessageRow strptimeFail 77 badRow).date = 77 := by
  have h := parser_defaults strptimeFail 77 [badRow] badRow (by decide)
  exact ⟨h.1, h.2.2.2.2.2.1 rfl, h.2.2.2.2.2.2.2.2 rfl rfl⟩

end LinkedinIntel

